import Mathlib

/-!
Verification development for the webexec-lite HTTP server.

The program version embedded here is the latest snapshot of the sources:
the dispatcher, external-handler invoker and index resolver of
src/unnamed/part_003, the directory-listing renderer RenderDirList of
src/unnamed/part_000, and the StatusWriter instrumentation of
src/logutil.go.  The files src/main.go, src/unnamed/part_001 and
src/unnamed/part_002 are earlier snapshots of the same main.go that
part_003 supersedes (part_003 carries the comment removing the local
renderDirList in favour of the shared one, and it alone references the
StatusWriter and RenderDirList helpers kept in the other files).

Filesystem access, process execution, the static file server
(http.ServeFile) and the clock are modelled as oracles bundled in the
World structure; every pure computation (string handling, CGI
environment construction, argument substitution, the decision tree
itself) is translated directly from the Go source.
-/

namespace Webexec

/-! ## String helpers (models of the Go standard library calls used) -/

/-- Splits a character list at the first occurrence of c; the pair is
(before, after).  When c does not occur the whole list is the first
component.  Used to read the KEY of a KEY=VALUE environment entry. -/
def splitFirst (c : Char) : List Char → (List Char × List Char)
  | [] => ([], [])
  | a :: rest =>
    if a = c then ([], rest)
    else
      let p := splitFirst c rest
      (a :: p.1, p.2)

/-- Splits a character list at the last occurrence of c, returning none
when c does not occur.  Models the last-colon search of
net.SplitHostPort. -/
def splitLast (c : Char) : List Char → Option (List Char × List Char)
  | [] => none
  | a :: rest =>
    match splitLast c rest with
    | some p => some (a :: p.1, p.2)
    | none => if a = c then some ([], rest) else none

/-- Models strings.ReplaceAll for a non-empty pattern: leftmost,
non-overlapping replacement.  The fuel argument (the input length) only
serves structural termination; each step consumes at least one
character, so the fuel never runs out on the initial call. -/
def replaceAllAux (pat repl : List Char) : Nat → List Char → List Char
  | _, [] => []
  | 0, s => s
  | fuel + 1, c :: rest =>
    if (!pat.isEmpty) && pat.isPrefixOf (c :: rest) then
      repl ++ replaceAllAux pat repl fuel ((c :: rest).drop pat.length)
    else
      c :: replaceAllAux pat repl fuel rest

/-- Models strings.ReplaceAll (the program only calls it with the
non-empty patterns "-" and the filepath placeholder). -/
def replaceAll (s pat repl : String) : String :=
  String.mk (replaceAllAux pat.data repl.data s.data.length s.data)

/-- Models strings.ToLower restricted to ASCII (the extensions and
header names the program feeds it are ASCII). -/
def toLowerS (s : String) : String := String.mk (s.data.map Char.toLower)

/-- Models strings.ToUpper restricted to ASCII. -/
def toUpperS (s : String) : String := String.mk (s.data.map Char.toUpper)

/-- Models filepath.Ext: the suffix starting at the final dot in the
final path element, empty when that element has no dot. -/
def extAux : List Char → List Char → Option (List Char)
  | [], _ => none
  | c :: rest, acc =>
    if c = '/' then none
    else if c = '.' then some (c :: acc)
    else extAux rest (c :: acc)

/-- Models filepath.Ext by scanning the path from its end. -/
def filepathExt (s : String) : String :=
  match extAux s.data.reverse [] with
  | some l => String.mk l
  | none => ""

/-- Models filepath.Join for the two-argument calls the program makes;
the Clean pass of the Go function is not modelled (paths reach the
filesystem oracle as plain keys, so cleaning cannot change any claim). -/
def joinPath (dir name : String) : String := dir ++ "/" ++ name

/-- Models filepath.IsAbs on Unix: the path starts with a slash. -/
def isAbsPath (s : String) : Bool :=
  match s.data with
  | '/' :: _ => true
  | _ => false

/-- Models net.SplitHostPort: split at the last colon, accepting a
bracketed IPv6 host and rejecting an unbracketed host that itself
contains a colon.  Port validation details of the Go function are not
modelled; no claim depends on them. -/
def splitHostPort (s : String) : Option (String × String)  :=
  match splitLast ':' s.data with
  | none => none
  | some p =>
    match p.1 with
    | '[' :: t =>
      if t.getLast? = some ']' then some (String.mk t.dropLast, String.mk p.2) else none
    | h =>
      if h.contains ':' then none else some (String.mk h, String.mk p.2)

/-- Models http.Header.Get on a header represented as an ordered list of
(canonical-name, values) pairs: the first value of the first pair with
that name, or the empty string. -/
def headerGet : List (String × List String) → String → String
  | [], _ => ""
  | p :: rest, k => if p.1 = k then p.2.headD "" else headerGet rest k

/-- Reads the KEY of a KEY=VALUE environment entry (the part before the
first equals sign). -/
def envEntryKey (s : String) : String := String.mk (splitFirst '=' s.data).1

/-- Reads the VALUE of a KEY=VALUE environment entry (the part after the
first equals sign). -/
def envEntryValue (s : String) : String := String.mk (splitFirst '=' s.data).2

/-- All values carried by entries of the given key, in order. -/
def valuesOfKey (env : List String) (k : String) : List String :=
  (env.filter (fun e => envEntryKey e = k)).map envEntryValue

/-! ## Data model -/

/-- Result of an os.Stat call: the directory flag and the permission
bits of the file mode. -/
structure StatInfo where
  isDir : Bool
  mode : Nat
deriving DecidableEq, Repr

/-- Result of cmd.CombinedOutput (part_003 line 156): the captured
combined standard output and standard error, and whether the call
returned without error.  ok is false both for a non-zero exit and for a
failure to start; in the latter case the Go call returns the (empty)
output collected so far, which the oracle models by the output field. -/
structure RunOutcome where
  output : String
  ok : Bool
deriving DecidableEq, Repr

/-- Observable outcome of http.ServeFile through the instrumentation
wrapper: final status and bytes written. -/
structure ServeOutcome where
  status : Nat
  bytes : Nat
deriving DecidableEq, Repr

/-- Metadata of one directory entry as returned by DirEntry.Info: size
and the already-formatted modification time (the Format call on the Go
side is a pure external formatter). -/
structure FileMeta where
  size : Int
  modTime : String
deriving DecidableEq, Repr

/-- One entry of os.ReadDir: name, directory flag, and the result of its
Info call; info = none models the call failing, in which case the Go
code dereferences a nil interface. -/
structure DirEntry where
  name : String
  isDir : Bool
  info : Option FileMeta
deriving DecidableEq, Repr

/-- The fileInfo record built per entry in RenderDirList (part_000 lines
10 to 15), Go field names kept. -/
structure fileInfo where
  Name : String
  IsDir : Bool
  Size : Int
  ModTime : String
deriving DecidableEq, Repr

/-- HandlerConfig of part_003 lines 26 to 29: command path and argument
templates. -/
structure HandlerConfig where
  command : String
  args : List String
deriving DecidableEq, Repr

/-- The slice of the Config record (part_003 lines 31 to 40) that the
request dispatcher reads.  The Go handler map has unique keys; it is
embedded as an association list queried with List.lookup. -/
structure Config where
  homeDir : String
  defaultIndexes : List String
  handlers : List (String × HandlerConfig)
  errorPages404 : String
deriving DecidableEq, Repr

/-- The per-request data the dispatcher and invoker read from
net/http.Request.  urlRequestURI is r.URL.RequestURI() (used in the
handler log lines) while requestURI is the raw r.RequestURI (used for
the REQUEST_URI environment variable); headers is r.Header as an
ordered list of (canonical-name, values) pairs, standing in for one Go
map iteration order. -/
structure Request where
  method : String
  urlPath : String
  rawQuery : String
  headers : List (String × List String)
  host : String
  proto : String
  remoteAddr : String
  requestURI : String
  urlRequestURI : String
deriving DecidableEq, Repr

/-- The oracles for every effect the request path performs: os.Stat,
filepath.Abs, process execution, http.ServeFile, os.ReadDir, the
template URL-query escaper, os.Environ and the clock.  Each request is
handled against one fixed World. -/
structure World where
  stat : String → Option StatInfo
  absPath : String → Option String
  run : String → List String → RunOutcome
  serve : String → ServeOutcome
  readDir : String → Option (List DirEntry)
  queryEscape : String → String
  osEnviron : List String
  now : String

/-- One handler-log line (part_003 lines 103 and 170): timestamp,
resolved command, argument list, target path, method, request URI,
remote address and final status. -/
structure HandlerLogLine where
  time : String
  cmd : String
  args : List String
  filePath : String
  method : String
  uri : String
  remote : String
  status : Nat
deriving DecidableEq, Repr

/-- Observable outcome of handleWithExternal: response status and body,
the final Content-Type header value, whether a child process was
spawned, the environment handed to it (none when no process ran), and
the handler-log line emitted (none when the logger was nil). -/
structure ExtOutcome where
  status : Nat
  body : String
  contentType : String
  spawned : Bool
  childEnv : Option (List String)
  log : Option HandlerLogLine
deriving DecidableEq, Repr

/-- Observable outcome of a successful tryServeIndexWithHandler match:
the matched index path, whether it was dispatched to the external
handler, the resulting status, and the handler-log line of that
invocation (always none, because the call site passes a nil logger). -/
structure SubServe where
  indexPath : String
  usedExternal : Bool
  status : Nat
  handlerLog : Option HandlerLogLine
deriving DecidableEq, Repr

/-- The five response branches of the decision tree. -/
inductive Branch where
  | staticFile
  | indexFile
  | dirListing
  | externalHandler
  | errorPage
deriving DecidableEq, Repr

/-- Observable outcome of one request through the part_003 dispatcher:
branch taken, whether the response went through the StatusWriter
wrapper, how many access-log, error-log and handler-log lines were
written, the final response status, whether serveErrorPage was invoked
with the configured 404 page, and whether the request faulted (the
nil-Info dereference of RenderDirList). -/
structure DispatchResult where
  branch : Branch
  wrapped : Bool
  accessLines : Nat
  errorLines : Nat
  handlerLines : Nat
  status : Nat
  error404PageUsed : Bool
  faulted : Bool
deriving DecidableEq, Repr

/-- Status and body of a completed directory-listing response. -/
structure RenderOutcome where
  status : Nat
  body : String
deriving DecidableEq, Repr

/-! ## External handler invocation (part_003 lines 77 to 172) -/

/-- isExecutable of part_003 lines 77 to 84: the path stats successfully
and at least one execute permission bit is set. -/
def isExecutable (stat : String → Option StatInfo) (path : String) : Bool :=
  match stat path with
  | none => false
  | some info => info.mode &&& 0o111 != 0

/-- resolveHandlerCommand of part_003 lines 86 to 95: pass an absolute
path through, otherwise resolve it against the working directory via
the filepath.Abs oracle, falling back to the original on error. -/
def resolveHandlerCommand (absPath : String → Option String) (cmdPath : String) : String :=
  if isAbsPath cmdPath then cmdPath
  else
    match absPath cmdPath with
    | some abs => abs
    | none => cmdPath

/-- The argument substitution of part_003 lines 107 to 110: every
occurrence of the placeholder \x7bfilepath\x7d in each template is
replaced by the target path. -/
def substArgs (args : List String) (filePath : String) : List String :=
  args.map (fun arg => replaceAll arg "\x7bfilepath\x7d" filePath)

/-- One HTTP_ environment entry of the per-header loop (part_003 lines
124 to 129): hyphens replaced by underscores, the name upper-cased, the
values comma-joined. -/
def headerVar (p : String × List String) : String :=
  "HTTP_" ++ toUpperS (replaceAll p.1 "-" "_") ++ "=" ++ String.intercalate "," p.2

/-- The child environment built by handleWithExternal (part_003 lines
113 to 153): os.Environ() followed by the CGI-style variables in the
order the code appends them. -/
def buildEnv (parentEnv : List String) (r : Request) (filePath : String) : List String :=
  parentEnv
    ++ ["REQUEST_METHOD=" ++ r.method]
    ++ ["QUERY_STRING=" ++ r.rawQuery]
    ++ ["CONTENT_TYPE=" ++ headerGet r.headers "Content-Type"]
    ++ ["CONTENT_LENGTH=" ++ headerGet r.headers "Content-Length"]
    ++ ["SCRIPT_NAME=" ++ r.urlPath]
    ++ ["PATH_INFO=" ++ filePath]
    ++ ["REMOTE_ADDR=" ++ r.remoteAddr]
    ++ r.headers.map headerVar
    ++ ["HTTP_HOST=" ++ r.host]
    ++ (if headerGet r.headers "Cookie" = "" then []
        else ["HTTP_COOKIE=" ++ headerGet r.headers "Cookie"])
    ++ ["SERVER_PROTOCOL=" ++ r.proto]
    ++ (match splitHostPort r.host with
        | some hp => ["SERVER_NAME=" ++ hp.1] ++ ["SERVER_PORT=" ++ hp.2]
        | none => ["SERVER_NAME=" ++ r.host])
    ++ ["REQUEST_URI=" ++ r.requestURI]

/-- Modelled from the spec, section 6: one HTTP_HEADERNAME variable per
inbound header, hyphens replaced with underscores, name upper-cased,
multi-value headers comma-joined. -/
def specHeaderVar (p : String × List String) : String :=
  "HTTP_" ++ toUpperS (replaceAll p.1 "-" "_") ++ "=" ++ String.intercalate "," p.2

/-- Modelled from the spec, section 6: the CGI-style variable set passed
to every invoked handler in addition to the inherited process
environment, in the order the spec lists it.  The HTTP_COOKIE clause
"when present" is read as the first Cookie value being non-empty, and
"SERVER_NAME and SERVER_PORT split from the Host header when possible"
as the split succeeding, with SERVER_NAME falling back to the whole
Host value otherwise. -/
def cgiVarsSpec (r : Request) (resolvedPath : String) : List String :=
  ["REQUEST_METHOD=" ++ r.method]
    ++ ["QUERY_STRING=" ++ r.rawQuery]
    ++ ["CONTENT_TYPE=" ++ headerGet r.headers "Content-Type"]
    ++ ["CONTENT_LENGTH=" ++ headerGet r.headers "Content-Length"]
    ++ ["SCRIPT_NAME=" ++ r.urlPath]
    ++ ["PATH_INFO=" ++ resolvedPath]
    ++ ["REMOTE_ADDR=" ++ r.remoteAddr]
    ++ r.headers.map specHeaderVar
    ++ ["HTTP_HOST=" ++ r.host]
    ++ (if headerGet r.headers "Cookie" = "" then []
        else ["HTTP_COOKIE=" ++ headerGet r.headers "Cookie"])
    ++ ["SERVER_PROTOCOL=" ++ r.proto]
    ++ (match splitHostPort r.host with
        | some hp => ["SERVER_NAME=" ++ hp.1] ++ ["SERVER_PORT=" ++ hp.2]
        | none => ["SERVER_NAME=" ++ r.host])
    ++ ["REQUEST_URI=" ++ r.requestURI]

/-- handleWithExternal of part_003 lines 97 to 172.  loggerPresent
models whether the handlerLogger argument is non-nil; ctBefore is the
Content-Type already present on the response header (empty at every
call site).  On the non-executable path the function responds 500 with
a diagnostic naming the resolved command, spawns nothing, and logs the
unsubstituted argument templates; otherwise it substitutes the
templates, runs the command with the CGI environment, answers 200 with
the combined output on success (defaulting the Content-Type) and 500
with the combined output on error, then logs the substituted
arguments. -/
def handleWithExternal (w : World) (r : Request) (handler : HandlerConfig)
    (filePath : String) (loggerPresent : Bool) (ctBefore : String) : ExtOutcome :=
  let cmdPath := resolveHandlerCommand w.absPath handler.command
  if isExecutable w.stat cmdPath then
    let args := substArgs handler.args filePath
    let env := buildEnv w.osEnviron r filePath
    let res := w.run cmdPath args
    let status := if res.ok then 200 else 500
    { status := status
      body := res.output
      contentType :=
        if res.ok then (if ctBefore = "" then "text/html; charset=utf-8" else ctBefore)
        else ctBefore
      spawned := true
      childEnv := some env
      log :=
        if loggerPresent then
          some { time := w.now, cmd := cmdPath, args := args, filePath := filePath,
                 method := r.method, uri := r.urlRequestURI, remote := r.remoteAddr,
                 status := status }
        else none }
  else
    { status := 500
      body := "Handler executable not found or not executable: " ++ cmdPath
      contentType := ctBefore
      spawned := false
      childEnv := none
      log :=
        if loggerPresent then
          some { time := w.now, cmd := cmdPath, args := handler.args, filePath := filePath,
                 method := r.method, uri := r.urlRequestURI, remote := r.remoteAddr,
                 status := 500 }
        else none }

/-- Whether one configured index filename matches inside dirPath: the
joined path stats successfully and is not itself a directory (the loop
condition of part_003 line 177). -/
def indexCandidate (stat : String → Option StatInfo) (dirPath idx : String) : Bool :=
  match stat (joinPath dirPath idx) with
  | some st => !st.isDir
  | none => false

/-- tryServeIndexWithHandler of part_003 lines 174 to 188: probe the
configured index filenames in order; on the first that exists and is
not a directory, re-check its lowercase extension against the handler
map and either invoke the external handler (with a nil handler logger,
per the call site comment) or serve the file statically. -/
def tryServeIndexWithHandler (w : World) (r : Request) (dirPath : String)
    (indexes : List String) (handlers : List (String × HandlerConfig)) : Option SubServe :=
  match indexes with
  | [] => none
  | idx :: rest =>
    let indexPath := joinPath dirPath idx
    match w.stat indexPath with
    | some st =>
      if st.isDir then tryServeIndexWithHandler w r dirPath rest handlers
      else
        match handlers.lookup (toLowerS (filepathExt indexPath)) with
        | some handler =>
          let out := handleWithExternal w r handler indexPath false ""
          some { indexPath := indexPath, usedExternal := true,
                 status := out.status, handlerLog := out.log }
        | none =>
          let s := w.serve indexPath
          some { indexPath := indexPath, usedExternal := false,
                 status := s.status, handlerLog := none }
    | none => tryServeIndexWithHandler w r dirPath rest handlers

/-! ## Directory listing renderer (part_000 lines 17 to 46) -/

/-- The per-entry loop of RenderDirList (part_000 lines 24 to 33): each
entry's Info result is read with its error discarded, and Size and
ModTime are then taken from it.  A failed Info leaves a nil interface
value, so the read faults; the fault is modelled by none. -/
def buildInfos : List DirEntry → Option (List fileInfo)
  | [] => some []
  | e :: rest =>
    match e.info with
    | none => none
    | some m =>
      match buildInfos rest with
      | none => none
      | some tl =>
        some ({ Name := e.name, IsDir := e.isDir, Size := m.size, ModTime := m.modTime } :: tl)

/-- The sort of part_000 line 34, ordering entries by name ascending;
sort.Slice with a strict byte-wise less is modelled by a name-ordered
sort (directory entry names are unique, so the order is the same). -/
def sortInfos (infos : List fileInfo) : List fileInfo :=
  List.insertionSort (fun a b => a.Name ≤ b.Name) infos

/-- Link text of one rendered entry in the built-in template (part_000
line 43): the name, with a trailing slash appended for a directory. -/
def linkText (i : fileInfo) : String :=
  i.Name ++ (if i.IsDir then "/" else "")

/-- Href of one rendered entry in the built-in template: the escaped
path prefix, the name, and a trailing slash for a directory. -/
def linkHref (pre : String) (i : fileInfo) : String :=
  pre ++ i.Name ++ (if i.IsDir then "/" else "")

/-- One list item of the built-in template. -/
def entryLi (pre : String) (i : fileInfo) : String :=
  "<li><a href=\"" ++ linkHref pre i ++ "\">" ++ linkText i ++ "</a></li>"

/-- The built-in minimal template of part_000 line 43, rendered over the
sorted entries.  The HTML auto-escaping of interpolated values by
html/template is not modelled; it never adds or removes the trailing
slash the claims are about. -/
def renderFallback (urlPath pre : String) (infos : List fileInfo) : String :=
  "<html><head><title>Index of " ++ urlPath ++ "</title></head><body><h1>Index of "
    ++ urlPath ++ "</h1><ul>" ++ String.join (infos.map (entryLi pre))
    ++ "</ul></body></html>"

/-- RenderDirList of part_000 lines 17 to 46.  A failing ReadDir
answers 500; a failing per-entry Info faults (none).  The configurable
template file html/dirlist.html is an out-of-scope collaborator
(spec section 1); the rendering modelled is the built-in fallback
template, which binds the same three values. -/
def RenderDirList (w : World) (dirPath urlPath : String) : Option RenderOutcome :=
  match w.readDir dirPath with
  | none => some { status := 500, body := "Failed to read directory." }
  | some files =>
    match buildInfos files with
    | none => none
    | some infos =>
      some { status := 200,
             body := renderFallback urlPath (w.queryEscape urlPath) (sortInfos infos) }

/-! ## Request dispatcher (part_003 lines 284 to 342) -/

/-- The decision tree of the part_003 request handler, recording the
branch taken and what each branch observably does: whether the response
went through the StatusWriter wrapper, the access-log, error-log and
handler-log lines written, the captured status, whether serveErrorPage
ran with the configured 404 page, and whether RenderDirList faulted.
Branch by branch, following the source: a missing path is wrapped,
serves the 404 page, and writes one error-log and one access-log line;
a directory with an index match is wrapped and writes one access-log
line (the handler logger passed down is nil); a directory without an
index match calls RenderDirList on the raw response writer and returns
without logging; a file with a handler match is wrapped, invokes the
external handler with the handler logger, writes an error-log line when
the captured status is at least 400, and writes one access-log line; any
other file is wrapped, served statically, and writes one access-log
line. -/
def dispatch (w : World) (cfg : Config) (r : Request) : DispatchResult :=
  let filePath := cfg.homeDir ++ r.urlPath
  match w.stat filePath with
  | some st =>
    if st.isDir then
      match tryServeIndexWithHandler w r filePath cfg.defaultIndexes cfg.handlers with
      | some sub =>
        { branch := Branch.indexFile, wrapped := true, accessLines := 1, errorLines := 0,
          handlerLines := if sub.handlerLog.isSome then 1 else 0,
          status := sub.status, error404PageUsed := false, faulted := false }
      | none =>
        match RenderDirList w filePath r.urlPath with
        | some out =>
          { branch := Branch.dirListing, wrapped := false, accessLines := 0, errorLines := 0,
            handlerLines := 0, status := out.status, error404PageUsed := false,
            faulted := false }
        | none =>
          { branch := Branch.dirListing, wrapped := false, accessLines := 0, errorLines := 0,
            handlerLines := 0, status := 0, error404PageUsed := false, faulted := true }
    else
      match cfg.handlers.lookup (toLowerS (filepathExt filePath)) with
      | some handler =>
        let out := handleWithExternal w r handler filePath true ""
        { branch := Branch.externalHandler, wrapped := true, accessLines := 1,
          errorLines := if 400 ≤ out.status then 1 else 0,
          handlerLines := if out.log.isSome then 1 else 0,
          status := out.status, error404PageUsed := false, faulted := false }
      | none =>
        let s := w.serve filePath
        { branch := Branch.staticFile, wrapped := true, accessLines := 1, errorLines := 0,
          handlerLines := 0, status := s.status, error404PageUsed := false, faulted := false }
  | none =>
    { branch := Branch.errorPage, wrapped := true, accessLines := 1, errorLines := 1,
      handlerLines := 0, status := 404, error404PageUsed := true, faulted := false }

/-! ## Concrete fixtures used by witnesses and counterexamples -/

/-- A plain GET request with no headers. -/
def rPlain : Request :=
  { method := "GET", urlPath := "/d", rawQuery := "", headers := [],
    host := "example.com:8080", proto := "HTTP/1.1", remoteAddr := "10.0.0.1:5555",
    requestURI := "/d", urlRequestURI := "/d" }

/-- A family of requests carrying a Cookie header with the given first
value and remaining values. -/
def rCkGen (v0 : String) (vs : List String) : Request :=
  { method := "GET", urlPath := "/f", rawQuery := "", headers := [("Cookie", v0 :: vs)],
    host := "example.com:8080", proto := "HTTP/1.1", remoteAddr := "10.0.0.1:5555",
    requestURI := "/f", urlRequestURI := "/f" }

/-- Whether every directory entry of a rendered listing carries the
trailing slash on both its link text and its href, as the built-in
template produces them. -/
def dirSlashOK (pre : String) (infos : List fileInfo) : Bool :=
  (infos.filter (fun i => i.IsDir)).all
    (fun i => (linkText i == i.Name ++ "/") && (linkHref pre i == pre ++ i.Name ++ "/"))

/-- A filesystem in which /root/d is a directory with no entries and no
index file. -/
def wDir : World :=
  { stat := fun p => if p = "/root/d" then some { isDir := true, mode := 0o755 } else none,
    absPath := fun _ => none,
    run := fun _ _ => { output := "", ok := true },
    serve := fun _ => { status := 200, bytes := 0 },
    readDir := fun p => if p = "/root/d" then some [] else none,
    queryEscape := fun s => s,
    osEnviron := [],
    now := "2026-10-11T00:00:00Z" }

/-- The dispatcher configuration used with wDir. -/
def cfgDir : Config :=
  { homeDir := "/root", defaultIndexes := ["index.html", "index.htm"], handlers := [],
    errorPages404 := "./public/404.html" }

/-- A filesystem on which no path stats. -/
def wNoExec : World :=
  { stat := fun _ => none,
    absPath := fun _ => none,
    run := fun _ _ => { output := "", ok := false },
    serve := fun _ => { status := 200, bytes := 0 },
    readDir := fun _ => none,
    queryEscape := fun s => s,
    osEnviron := [],
    now := "t0" }

/-- A handler descriptor whose command does not exist on wNoExec. -/
def hcMissing : HandlerConfig :=
  { command := "/bin/nosuch", args := ["-f", "\x7bfilepath\x7d"] }

/-- A handler descriptor whose command is executable on wExec and wIdx. -/
def hcRun : HandlerConfig :=
  { command := "/bin/run", args := ["\x7bfilepath\x7d"] }

/-- A filesystem on which /bin/run is an executable file and every run
succeeds with output hello. -/
def wExec : World :=
  { stat := fun p => if p = "/bin/run" then some { isDir := false, mode := 0o755 } else none,
    absPath := fun _ => none,
    run := fun _ _ => { output := "hello", ok := true },
    serve := fun _ => { status := 200, bytes := 0 },
    readDir := fun _ => none,
    queryEscape := fun s => s,
    osEnviron := ["PATH=/bin"],
    now := "t1" }

/-- A filesystem holding the index file /root/d/index.php and the
executable /bin/run. -/
def wIdx : World :=
  { stat := fun p =>
      if p = "/root/d/index.php" then some { isDir := false, mode := 0o644 }
      else if p = "/bin/run" then some { isDir := false, mode := 0o755 }
      else none,
    absPath := fun _ => none,
    run := fun _ _ => { output := "ok", ok := true },
    serve := fun _ => { status := 200, bytes := 0 },
    readDir := fun _ => none,
    queryEscape := fun s => s,
    osEnviron := [],
    now := "t2" }

/-- Two directory entries, out of name order, with metadata available. -/
def filesC : List DirEntry :=
  [ { name := "b", isDir := true, info := some { size := 0, modTime := "t" } },
    { name := "a", isDir := false, info := some { size := 1, modTime := "t" } } ]

/-- The fileInfo records RenderDirList builds from filesC, in
enumeration order. -/
def infosC : List fileInfo :=
  [ { Name := "b", IsDir := true, Size := 0, ModTime := "t" },
    { Name := "a", IsDir := false, Size := 1, ModTime := "t" } ]

/-- A filesystem in which /root/d enumerates to filesC. -/
def wInfoOk : World :=
  { stat := fun _ => none,
    absPath := fun _ => none,
    run := fun _ _ => { output := "", ok := true },
    serve := fun _ => { status := 200, bytes := 0 },
    readDir := fun p => if p = "/root/d" then some filesC else none,
    queryEscape := fun s => s,
    osEnviron := [],
    now := "t3" }

/-- A filesystem in which /root/e enumerates to one entry whose Info
lookup fails. -/
def wInfoFail : World :=
  { stat := fun _ => none,
    absPath := fun _ => none,
    run := fun _ _ => { output := "", ok := true },
    serve := fun _ => { status := 200, bytes := 0 },
    readDir := fun p =>
      if p = "/root/e" then some [ { name := "x", isDir := false, info := none } ] else none,
    queryEscape := fun s => s,
    osEnviron := [],
    now := "t4" }

/-! ## Shared lemmas -/

/-- When no configured index filename matches, the index resolver
declines the request. -/
lemma tryServe_none (w : World) (r : Request) (dirPath : String)
    (handlers : List (String × HandlerConfig)) :
    ∀ indexes : List String,
      (∀ idx ∈ indexes, indexCandidate w.stat dirPath idx = false) →
      tryServeIndexWithHandler w r dirPath indexes handlers = none := by
  intro indexes
  induction indexes with
  | nil => intro _; rfl
  | cons idx rest ih =>
    intro h
    have hidx := h idx (List.mem_cons_self idx rest)
    have hrest := fun i hi => h i (List.mem_cons_of_mem idx hi)
    unfold tryServeIndexWithHandler
    unfold indexCandidate at hidx
    cases hs : w.stat (joinPath dirPath idx) with
    | none =>
      simp only [hs]
      exact ih hrest
    | some st =>
      rw [hs] at hidx
      simp only [Bool.not_eq_false'] at hidx
      simp only [hs, hidx, if_true]
      exact ih hrest

/-! ## Claim C1 -/

/-- C1: the claim states that on every one of the five branches the
response is wrapped in the instrumentation wrapper and exactly one
access-log line is emitted.  On the directory-listing branch the
part_003 handler passes the raw response writer to RenderDirList and
returns without logging, so at this concrete input the branch is the
directory listing, the response is not wrapped and no access-log line
is written. -/
theorem C1_counterexample :
    (dispatch wDir cfgDir rPlain).branch = Branch.dirListing
    ∧ ¬((dispatch wDir cfgDir rPlain).wrapped = true
        ∧ (dispatch wDir cfgDir rPlain).accessLines = 1) := by
  decide

/-- C1 (amended): on four of the five branches (static file, index
file, external handler, error page) the response is wrapped in the
StatusWriter and exactly one access-log line is emitted, while the
directory-listing branch is unwrapped and emits none; an error-log line
is emitted exactly on the error-page branch and on the external-handler
branch when the captured status is at least 400 (error statuses on the
static and index branches emit none). -/
theorem C1_amended (w : World) (cfg : Config) (r : Request) :
    (dispatch w cfg r).wrapped
        = (if (dispatch w cfg r).branch = Branch.dirListing then false else true)
    ∧ (dispatch w cfg r).accessLines
        = (if (dispatch w cfg r).branch = Branch.dirListing then 0 else 1)
    ∧ (dispatch w cfg r).errorLines
        = (match (dispatch w cfg r).branch with
           | Branch.errorPage => 1
           | Branch.externalHandler => if 400 ≤ (dispatch w cfg r).status then 1 else 0
           | _ => 0) := by
  simp only [dispatch]
  split
  · split
    · split
      · simp
      · split
        · simp
        · simp
    · split
      · simp
      · simp
  · simp

/-! ## Claim C2 -/

/-- C2: for every request resolving to an existing directory in which
no configured index filename matches (exists and is not itself a
directory), the dispatcher falls through to the directory-listing
renderer and never invokes the configured custom 404 page. -/
theorem C2_dirlisting_fallthrough (w : World) (cfg : Config) (r : Request) (st : StatInfo)
    (hstat : w.stat (cfg.homeDir ++ r.urlPath) = some st)
    (hdir : st.isDir = true)
    (hnone : ∀ idx ∈ cfg.defaultIndexes,
        indexCandidate w.stat (cfg.homeDir ++ r.urlPath) idx = false) :
    (dispatch w cfg r).branch = Branch.dirListing
    ∧ (dispatch w cfg r).error404PageUsed = false := by
  have hts := tryServe_none w r (cfg.homeDir ++ r.urlPath) cfg.handlers
    cfg.defaultIndexes hnone
  simp only [dispatch, hstat, hdir, if_true, hts]
  cases hr : RenderDirList w (cfg.homeDir ++ r.urlPath) r.urlPath with
  | none => simp
  | some out => simp

/-- C2 witness: at the concrete wDir filesystem the request for /d
resolves to a directory with no matching index and lands on the
directory-listing branch without touching the 404 page. -/
theorem C2_witness :
    (dispatch wDir cfgDir rPlain).branch = Branch.dirListing
    ∧ (dispatch wDir cfgDir rPlain).error404PageUsed = false :=
  C2_dirlisting_fallthrough wDir cfgDir rPlain { isDir := true, mode := 0o755 }
    rfl rfl (by decide)

/-! ## Claim C3 -/

/-- C3: when the resolved command path does not exist or carries no
execute permission bit, the invoker answers 500 with a diagnostic body
naming the resolved command path and spawns no process. -/
theorem C3_no_spawn (w : World) (r : Request) (handler : HandlerConfig)
    (fp : String) (lp : Bool) (ct : String)
    (hx : w.stat (resolveHandlerCommand w.absPath handler.command) = none
          ∨ ∃ i, w.stat (resolveHandlerCommand w.absPath handler.command) = some i
                 ∧ i.mode &&& 0o111 = 0) :
    (handleWithExternal w r handler fp lp ct).status = 500
    ∧ (handleWithExternal w r handler fp lp ct).body
        = "Handler executable not found or not executable: "
            ++ resolveHandlerCommand w.absPath handler.command
    ∧ (handleWithExternal w r handler fp lp ct).spawned = false := by
  have hexec : isExecutable w.stat (resolveHandlerCommand w.absPath handler.command) = false := by
    unfold isExecutable
    rcases hx with h | ⟨i, hi, hm⟩
    · rw [h]
    · rw [hi]
      simp [hm]
  simp [handleWithExternal, hexec]

/-- C3 witness: the command /bin/nosuch stats to nothing on wNoExec, so
the invocation answers 500 with the diagnostic body and spawns
nothing. -/
theorem C3_witness :
    (handleWithExternal wNoExec rPlain hcMissing "/root/a.php" true "").status = 500
    ∧ (handleWithExternal wNoExec rPlain hcMissing "/root/a.php" true "").body
        = "Handler executable not found or not executable: " ++ "/bin/nosuch"
    ∧ (handleWithExternal wNoExec rPlain hcMissing "/root/a.php" true "").spawned = false :=
  C3_no_spawn wNoExec rPlain hcMissing "/root/a.php" true "" (Or.inl rfl)

/-! ## Claim C4 -/

/-- C4: when the executable check passes, a process is spawned, the
response body is exactly the captured combined output, the status is
200 on success and 500 on failure (non-zero exit or failure to start),
and on success an unset Content-Type defaults to
text/html; charset=utf-8. -/
theorem C4_output_capture (w : World) (r : Request) (handler : HandlerConfig)
    (fp : String) (lp : Bool) (ct : String)
    (hx : isExecutable w.stat (resolveHandlerCommand w.absPath handler.command) = true) :
    (handleWithExternal w r handler fp lp ct).spawned = true
    ∧ (handleWithExternal w r handler fp lp ct).body
        = (w.run (resolveHandlerCommand w.absPath handler.command)
            (substArgs handler.args fp)).output
    ∧ (handleWithExternal w r handler fp lp ct).status
        = (if (w.run (resolveHandlerCommand w.absPath handler.command)
                (substArgs handler.args fp)).ok then 200 else 500)
    ∧ ((w.run (resolveHandlerCommand w.absPath handler.command)
          (substArgs handler.args fp)).ok = true →
        (handleWithExternal w r handler fp lp ct).contentType
          = (if ct = "" then "text/html; charset=utf-8" else ct)) := by
  refine ⟨?_, ?_, ?_, ?_⟩
  · simp [handleWithExternal, hx]
  · simp [handleWithExternal, hx]
  · simp [handleWithExternal, hx]
  · intro hok
    simp [handleWithExternal, hx, hok]

/-- C4 witness: on wExec the handler command runs, succeeds with output
hello, and the response is 200 with the defaulted Content-Type. -/
theorem C4_witness :
    (handleWithExternal wExec rPlain hcRun "/root/a.php" true "").spawned = true
    ∧ (handleWithExternal wExec rPlain hcRun "/root/a.php" true "").body = "hello"
    ∧ (handleWithExternal wExec rPlain hcRun "/root/a.php" true "").status = 200
    ∧ ((wExec.run (resolveHandlerCommand wExec.absPath hcRun.command)
          (substArgs hcRun.args "/root/a.php")).ok = true →
        (handleWithExternal wExec rPlain hcRun "/root/a.php" true "").contentType
          = "text/html; charset=utf-8") :=
  C4_output_capture wExec rPlain hcRun "/root/a.php" true "" (by decide)

/-! ## Claim C5 -/

/-- C5: the claim states that every external-handler invocation,
including one reached through index-file resolution, emits exactly one
handler-log line.  At this concrete input the index file index.php is
matched and dispatched to the external handler, a process runs to
completion, and the handler log stays empty, because the index path
hands a nil handler logger to the invoker. -/
theorem C5_counterexample :
    tryServeIndexWithHandler wIdx rPlain "/root/d" ["index.php"] [(".php", hcRun)]
      = some { indexPath := "/root/d/index.php", usedExternal := true,
               status := 200, handlerLog := none } := by
  decide

/-- C5 (amended): an invocation with the handler logger present emits
exactly one handler-log line — also on the immediate-failure path —
recording the timestamp, the resolved command, the argument list (the
substituted arguments once a process is spawned, the raw templates on
the immediate-failure path), the target path, the method, the request
URI, the remote address and the final status; an invocation with a nil
logger, as reached through index-file resolution, emits none. -/
theorem C5_amended (w : World) (r : Request) (handler : HandlerConfig)
    (fp : String) (ct : String) :
    (handleWithExternal w r handler fp true ct).log
        = some { time := w.now,
                 cmd := resolveHandlerCommand w.absPath handler.command,
                 args := if (handleWithExternal w r handler fp true ct).spawned
                         then substArgs handler.args fp else handler.args,
                 filePath := fp, method := r.method, uri := r.urlRequestURI,
                 remote := r.remoteAddr,
                 status := (handleWithExternal w r handler fp true ct).status }
    ∧ (handleWithExternal w r handler fp false ct).log = none := by
  by_cases hex : isExecutable w.stat (resolveHandlerCommand w.absPath handler.command) = true
  · simp [handleWithExternal, hex]
  · simp [handleWithExternal, hex]

/-! ## Claim C6 -/

/-- The environment the invoker builds is the parent environment
followed by the spec's CGI variable set. -/
lemma buildEnv_eq_spec (parentEnv : List String) (r : Request) (fp : String) :
    buildEnv parentEnv r fp = parentEnv ++ cgiVarsSpec r fp := by
  unfold buildEnv cgiVarsSpec headerVar specHeaderVar
  simp [List.append_assoc]

/-- C6: every spawned handler receives exactly the parent process
environment followed by the CGI-style variable set of spec section 6:
REQUEST_METHOD, QUERY_STRING, CONTENT_TYPE, CONTENT_LENGTH,
SCRIPT_NAME, PATH_INFO, REMOTE_ADDR, one HTTP_ variable per inbound
header (hyphens to underscores, upper-cased, values comma-joined),
HTTP_HOST, HTTP_COOKIE when a cookie is present, SERVER_PROTOCOL,
SERVER_NAME and SERVER_PORT split from the Host header when possible,
and REQUEST_URI. -/
theorem C6_cgi_env (w : World) (r : Request) (handler : HandlerConfig)
    (fp : String) (lp : Bool) (ct : String)
    (hx : isExecutable w.stat (resolveHandlerCommand w.absPath handler.command) = true) :
    (handleWithExternal w r handler fp lp ct).childEnv
      = some (w.osEnviron ++ cgiVarsSpec r fp) := by
  simp [handleWithExternal, hx, buildEnv_eq_spec]

/-- C6 witness: on wExec the spawned child receives the parent
environment followed by the CGI variable set for rPlain. -/
theorem C6_witness :
    (handleWithExternal wExec rPlain hcRun "/root/a.php" true "").childEnv
      = some (["PATH=/bin"] ++ cgiVarsSpec rPlain "/root/a.php") :=
  C6_cgi_env wExec rPlain hcRun "/root/a.php" true "" (by decide)

/-! ## Claim C7 -/

/-- C7: index resolution probes the configured filenames in
configuration order and selects the first that exists and is not itself
a directory (the model carries no filesystem enumeration order at all),
and the selected index file is dispatched to the external handler
exactly when its lowercase extension is in the handler map, being
served statically otherwise. -/
theorem C7_index_resolution (w : World) (r : Request) (dirPath : String)
    (indexes : List String) (handlers : List (String × HandlerConfig)) :
    match indexes.find? (fun idx => indexCandidate w.stat dirPath idx) with
    | none => tryServeIndexWithHandler w r dirPath indexes handlers = none
    | some idx =>
      ∃ sub, tryServeIndexWithHandler w r dirPath indexes handlers = some sub
        ∧ sub.indexPath = joinPath dirPath idx
        ∧ sub.usedExternal
            = (handlers.lookup (toLowerS (filepathExt (joinPath dirPath idx)))).isSome := by
  induction indexes with
  | nil => simp [tryServeIndexWithHandler]
  | cons idx rest ih =>
    by_cases hc : indexCandidate w.stat dirPath idx = true
    · rw [List.find?_cons_of_pos _ hc]
      unfold indexCandidate at hc
      cases hs : w.stat (joinPath dirPath idx) with
      | none =>
        rw [hs] at hc
        exact absurd hc (by simp)
      | some st =>
        rw [hs] at hc
        have hnd : st.isDir = false := by simpa using hc
        unfold tryServeIndexWithHandler
        simp only [hs, hnd, Bool.false_eq_true, if_false]
        cases hl : handlers.lookup (toLowerS (filepathExt (joinPath dirPath idx))) with
        | some handler => exact ⟨_, rfl, rfl, by simp [hl]⟩
        | none => exact ⟨_, rfl, rfl, by simp [hl]⟩
    · rw [List.find?_cons_of_neg _ (by simpa using hc)]
      unfold indexCandidate at hc
      cases hs : w.stat (joinPath dirPath idx) with
      | none =>
        unfold tryServeIndexWithHandler
        simp only [hs]
        exact ih
      | some st =>
        rw [hs] at hc
        have hd : st.isDir = true := by simpa using hc
        unfold tryServeIndexWithHandler
        simp only [hs, hd, if_true]
        exact ih

/-! ## Claim C8 -/

/-- The per-entry records RenderDirList builds carry exactly the names
and directory flags of the enumerated entries, in order. -/
lemma buildInfos_map (files : List DirEntry) (infos : List fileInfo)
    (h : buildInfos files = some infos) :
    infos.map (fun i => (i.Name, i.IsDir)) = files.map (fun e => (e.name, e.isDir)) := by
  induction files generalizing infos with
  | nil =>
    simp only [buildInfos, Option.some.injEq] at h
    subst h
    simp
  | cons e rest ih =>
    unfold buildInfos at h
    cases hm : e.info with
    | none =>
      rw [hm] at h
      exact absurd h (by simp)
    | some m =>
      rw [hm] at h
      cases hb : buildInfos rest with
      | none =>
        rw [hb] at h
        exact absurd h (by simp)
      | some tl =>
        rw [hb] at h
        simp only [Option.some.injEq] at h
        subst h
        simp [ih tl hb]

/-- The sort of the renderer is a permutation of its input. -/
lemma sortInfos_perm (infos : List fileInfo) : (sortInfos infos).Perm infos :=
  List.perm_insertionSort _ infos

/-- The sorted entry names are pairwise ascending. -/
lemma sortInfos_pairwise (infos : List fileInfo) :
    ((sortInfos infos).map (fun i => i.Name)).Pairwise (fun a b => a ≤ b) := by
  haveI : IsTotal fileInfo (fun a b => a.Name ≤ b.Name) :=
    ⟨fun a b => le_total a.Name b.Name⟩
  haveI : IsTrans fileInfo (fun a b => a.Name ≤ b.Name) :=
    ⟨fun _ _ _ h1 h2 => le_trans h1 h2⟩
  rw [List.pairwise_map]
  exact List.sorted_insertionSort (fun a b => a.Name ≤ b.Name) infos

/-- C8: when enumeration and every per-entry metadata lookup succeed,
the rendered listing is exactly the sorted entry records: its entries
are a permutation of the directory's immediate children (no more, no
fewer — the renderer never recurses), the names are sorted ascending
byte-wise, and every directory entry carries the trailing slash on both
link text and href. -/
theorem C8_dirlisting_entries (w : World) (dirPath urlPath : String)
    (files : List DirEntry) (infos : List fileInfo)
    (hrd : w.readDir dirPath = some files)
    (hinfo : buildInfos files = some infos) :
    RenderDirList w dirPath urlPath
      = some { status := 200,
               body := renderFallback urlPath (w.queryEscape urlPath) (sortInfos infos) }
    ∧ ((sortInfos infos).map (fun i => (i.Name, i.IsDir))).Perm
        (files.map (fun e => (e.name, e.isDir)))
    ∧ ((sortInfos infos).map (fun i => i.Name)).Pairwise (fun a b => a ≤ b)
    ∧ dirSlashOK (w.queryEscape urlPath) (sortInfos infos) = true := by
  refine ⟨?_, ?_, sortInfos_pairwise infos, ?_⟩
  · simp [RenderDirList, hrd, hinfo]
  · have hp := (sortInfos_perm infos).map (fun i => (i.Name, i.IsDir))
    rw [buildInfos_map files infos hinfo] at hp
    exact hp
  · unfold dirSlashOK
    rw [List.all_eq_true]
    intro i hi
    have hdir : i.IsDir = true := by
      have := List.mem_filter.mp hi
      simpa using this.2
    simp [linkText, linkHref, hdir]

/-- C8 witness: the two-entry directory filesC renders with its entries
sorted ascending (a before b), exactly the two children, and the
directory entry b carries the trailing slash. -/
theorem C8_witness :
    RenderDirList wInfoOk "/root/d" "/d/"
      = some { status := 200,
               body := renderFallback "/d/" (wInfoOk.queryEscape "/d/") (sortInfos infosC) }
    ∧ ((sortInfos infosC).map (fun i => (i.Name, i.IsDir))).Perm
        (filesC.map (fun e => (e.name, e.isDir)))
    ∧ ((sortInfos infosC).map (fun i => i.Name)).Pairwise (fun a b => a ≤ b)
    ∧ dirSlashOK (wInfoOk.queryEscape "/d/") (sortInfos infosC) = true :=
  C8_dirlisting_entries wInfoOk "/root/d" "/d/" filesC infosC rfl rfl

/-! ## Claim C9 -/

/-- C9: the claim states the renderer produces a response for every
enumerable directory even when an entry's Info lookup fails, on the
grounds that the lookup's error is discarded.  At this concrete input
the directory enumerates successfully, the single entry's Info lookup
fails, and the renderer produces no response: discarding the error
leaves a nil interface value whose Size read faults. -/
theorem C9_counterexample :
    wInfoFail.readDir "/root/e" = some [ { name := "x", isDir := false, info := none } ]
    ∧ RenderDirList wInfoFail "/root/e" "/e/" = none := by
  decide

/-- Every entry's metadata being available makes the per-entry record
construction total. -/
lemma buildInfos_total (files : List DirEntry)
    (h : ∀ e ∈ files, e.info.isSome = true) :
    (buildInfos files).isSome = true := by
  induction files with
  | nil => rfl
  | cons e rest ih =>
    have he := h e (List.mem_cons_self e rest)
    have hrest := fun x hx => h x (List.mem_cons_of_mem e hx)
    unfold buildInfos
    cases hm : e.info with
    | none =>
      rw [hm] at he
      exact absurd he (by simp)
    | some m =>
      have hb := ih hrest
      cases hbi : buildInfos rest with
      | none =>
        rw [hbi] at hb
        exact absurd hb (by simp)
      | some tl => simp

/-- C9 (amended): the renderer is total only when every enumerated
entry's Info lookup succeeds (it also answers, with a 500, when the
enumeration itself fails); an entry whose Info lookup fails faults,
because the discarded error leaves a nil interface whose Size and
ModTime reads dereference it. -/
theorem C9_amended (w : World) (dirPath urlPath : String)
    (hok : ∀ files, w.readDir dirPath = some files → ∀ e ∈ files, e.info.isSome = true) :
    (RenderDirList w dirPath urlPath).isSome = true := by
  unfold RenderDirList
  cases hrd : w.readDir dirPath with
  | none => rfl
  | some files =>
    have hb := buildInfos_total files (hok files hrd)
    cases hbi : buildInfos files with
    | none =>
      rw [hbi] at hb
      exact absurd hb (by simp)
    | some infos => simp [hbi]

/-- C9 witness: on the filesystem wInfoOk, where every entry's metadata
lookup succeeds, the renderer produces a response. -/
theorem C9_witness : (RenderDirList wInfoOk "/root/d" "/d/").isSome = true :=
  C9_amended wInfoOk "/root/d" "/d/" (by
    intro files hf
    have h2 : some filesC = some files := hf
    cases Option.some.inj h2
    decide)

/-! ## Claim C10 -/

/-- C10: the claim states that a request with a Cookie header yields
HTTP_COOKIE twice with the same value.  At this concrete input the
Cookie header carries the two values a and b: the generic per-header
loop contributes the comma-join a,b while the explicit append
contributes only the first value a, so HTTP_COOKIE does appear twice
but with two different values. -/
theorem C10_counterexample :
    valuesOfKey (buildEnv [] (rCkGen "a" ["b"]) "/root/f") "HTTP_COOKIE" = ["a,b", "a"]
    ∧ ¬ (("a,b" : String) = "a") := by
  decide

/-- C10 (amended): for a request whose Cookie header holds a non-empty
first value, the environment carries HTTP_COOKIE twice: the generic
per-header loop contributes the comma-join of all Cookie values and the
explicit append contributes the first value, so the two occurrences
agree exactly when the Cookie header holds a single value. -/
theorem C10_amended (v0 : String) (vs : List String) (fp : String) (hv0 : ¬ v0 = "") :
    valuesOfKey (buildEnv [] (rCkGen v0 vs) fp) "HTTP_COOKIE"
      = [String.intercalate "," (v0 :: vs), v0] := by
  simp only [valuesOfKey, buildEnv, rCkGen, List.map_cons, List.map_nil, headerVar]
  rw [show headerGet [("Cookie", v0 :: vs)] "Cookie" = v0 from rfl]
  rw [if_neg hv0]
  generalize String.intercalate "," (v0 :: vs) = V
  cases v0 with
  | mk d0 =>
  cases V with
  | mk dV =>
  cases fp with
  | mk dfp =>
  rfl

/-- C10 witness: for the Cookie values a and b the environment carries
HTTP_COOKIE as a,b from the loop and a from the explicit append. -/
theorem C10_witness :
    valuesOfKey (buildEnv [] (rCkGen "a" ["b"]) "/root/f") "HTTP_COOKIE"
      = [String.intercalate "," ("a" :: ["b"]), "a"] :=
  C10_amended "a" ["b"] "/root/f" (by decide)

end Webexec
